import Mathlib

/-!
# Lap/split chronograph face (`hpt_lapsplit_chrono_face.c`)

A shallow embedding of the chronograph watch face driven by the high-precision
timer, and theorems about its button handlers, its event loop and its renderer.

Conventions of the embedding

* C unsigned integers are natural numbers; every place where the C code can wrap
  or narrow carries an explicit `%` by the width of the C type.
* A counter read (`movement_hpt_get`, `movement_hpt_get_fast`) is an input of the
  handler that performs it: the argument `now` is the value the exact read returns
  and `fast` the value the fast read returns.  Whether the read is performed at all
  is recorded in the list of effects the handler returns.
* Calls into the host (`movement_*`) and into the display driver (`watch_*`) are
  recorded, in program order, as a list of `Effect`s.
-/

namespace LapSplitChrono

/-! ## Constants and machine arithmetic -/

/-- Frequency of the underlying timer, `#define LCF_SUBSECOND_RATE 1024`. -/
def LCF_SUBSECOND_RATE : Nat := 1024

/-- Display refresh rate while running, `#define LCF_DISPLAY_UPDATE_RATE 16`. -/
def LCF_DISPLAY_UPDATE_RATE : Nat := 16

/-- Number of values of a `uint64_t`, that is `2 ^ 64`. -/
def U64 : Nat := 18446744073709551616

/-- Number of values of a `uint32_t`, that is `2 ^ 32`. -/
def U32 : Nat := 4294967296

/-- Number of values of a `uint16_t`, that is `2 ^ 16`. -/
def U16 : Nat := 65536

/-- Number of values of a `uint8_t`, that is `2 ^ 8`. -/
def U8 : Nat := 256

/-- Subtraction of two `uint64_t` values, `a - b` in C: the difference modulo `2 ^ 64`.
Both operands are reduced first, so the function is total on `Nat` and agrees with
the C operation on every pair of 64-bit values. -/
def sub64 (a b : Nat) : Nat := (a % U64 + (U64 - b % U64)) % U64

/-! ## Data model -/

/-- Values of the `running` field: `LCF_RUN_RUNNING`, `LCF_RUN_STOPPED`. -/
inductive LcfRun
  | LCF_RUN_RUNNING
  | LCF_RUN_STOPPED
deriving DecidableEq, Repr

/-- Values of the `mode` field: `LCF_MODE_LAP`, `LCF_MODE_SPLIT`. -/
inductive LcfMode
  | LCF_MODE_LAP
  | LCF_MODE_SPLIT
deriving DecidableEq, Repr

/-- Values of the `display` field: `LCF_DISPLAY_TIME`, `LCF_DISPLAY_SPLIT`. -/
inductive LcfDisplay
  | LCF_DISPLAY_TIME
  | LCF_DISPLAY_SPLIT
deriving DecidableEq, Repr

open LcfRun LcfMode LcfDisplay

/-- Modelled from the spec: the declaration of `hpt_lapsplit_chrono_state_t` lives in
`hpt_lapsplit_chrono_face.h`, which is not among the sources.  The fields are the ones
the C file reads and writes; following the data model of the specification the three
timestamps are 64-bit tick counts (they are assigned from `uint64_t` expressions) and
`laps` is an 8-bit counter. -/
structure hpt_lapsplit_chrono_state_t where
  running : LcfRun
  mode : LcfMode
  display : LcfDisplay
  startTs : Nat
  pausedTs : Nat
  splitTs : Nat
  laps : Nat
deriving DecidableEq, Repr

/-- Well-formedness of a state as a C object: every integer field is within the range
of its C type. -/
def WellFormed (s : hpt_lapsplit_chrono_state_t) : Prop :=
  s.startTs < U64 ∧ s.pausedTs < U64 ∧ s.splitTs < U64 ∧ s.laps < U8

instance (s : hpt_lapsplit_chrono_state_t) : Decidable (WellFormed s) := by
  unfold WellFormed; infer_instance

/-- Calls the face makes into the timer service, the host and the display driver. -/
inductive Effect
  | movement_hpt_get
  | movement_hpt_get_fast
  | movement_hpt_request
  | movement_hpt_release
  | movement_request_tick_frequency (freq : Nat)
  | watch_display_string (str : List Char) (position : Nat)
  | watch_set_colon
  | watch_clear_colon
  | watch_set_indicator_LAP
  | watch_clear_indicator_LAP
  | movement_move_to_face (index : Nat)
  | movement_default_loop_handler
deriving DecidableEq, Repr

/-- The event kinds the loop distinguishes; every kind without a `case` of its own
is `OTHER` and reaches the `default:` branch. -/
inductive movement_event_type_t
  | EVENT_LIGHT_BUTTON_DOWN
  | EVENT_LIGHT_LONG_PRESS
  | EVENT_ALARM_BUTTON_DOWN
  | EVENT_LOW_ENERGY_UPDATE
  | EVENT_ACTIVATE
  | EVENT_TICK
  | EVENT_TIMEOUT
  | OTHER
deriving DecidableEq, Repr

open movement_event_type_t

/-! ## Formatting (`sprintf`) -/

/-- Left padding of a digit string to a minimum field width. -/
def padLeft (c : Char) (width : Nat) (ds : List Char) : List Char :=
  List.replicate (width - ds.length) c ++ ds

/-- The conversion `"%02d"` applied to a non-negative value. -/
def sprintf_02d (n : Nat) : List Char := padLeft '0' 2 (Nat.toDigits 10 n)

/-- The conversion `"%2d"` applied to a non-negative value. -/
def sprintf_2d (n : Nat) : List Char := padLeft ' ' 2 (Nat.toDigits 10 n)

/-! ## The renderer -/

/-- Line 43-52 of `render`: the running time, read with the fast read when running. -/
def runningTime (context : hpt_lapsplit_chrono_state_t) (fast : Nat) : Nat :=
  if context.running = LCF_RUN_RUNNING then sub64 fast context.startTs
  else context.pausedTs

/-- Line 53 of `render`: the tick count that is shown. -/
def showTime (context : hpt_lapsplit_chrono_state_t) (fast : Nat) : Nat :=
  if context.display = LCF_DISPLAY_SPLIT then context.splitTs
  else runningTime context fast

/-- Line 55: `uint8_t time_hundreths = (((uint16_t)(showTime % RATE)) * 100) / RATE`.
The `uint16_t` operand is promoted to `int` before the multiplication. -/
def time_hundreths (showTime : Nat) : Nat :=
  ((showTime % LCF_SUBSECOND_RATE) % U16 * 100 / LCF_SUBSECOND_RATE) % U8

/-- Line 57: `uint32_t d = showTime / LCF_SUBSECOND_RATE`, a narrowing of the 64-bit
quotient to 32 bits. -/
def d_seconds (showTime : Nat) : Nat := (showTime / LCF_SUBSECOND_RATE) % U32

/-- Line 58: `uint8_t time_seconds = d % 60`. -/
def time_seconds (showTime : Nat) : Nat := (d_seconds showTime % 60) % U8

/-- Line 59-60: `d /= 60; uint8_t time_minutes = d % 60`. -/
def time_minutes (showTime : Nat) : Nat := (d_seconds showTime / 60 % 60) % U8

/-- Line 61-62: `d /= 60; uint8_t time_hours = d > 40 ? 40 : d`. -/
def time_hours (showTime : Nat) : Nat :=
  let d := d_seconds showTime / 60 / 60
  (if d > 40 then 40 else d) % U8

/-- Line 64-75 of `render`: the primary field written at position 4. -/
def primaryField (showTime : Nat) (lowEnergyUpdate : Bool) : List Char :=
  if !lowEnergyUpdate then
    sprintf_02d (time_minutes showTime) ++ sprintf_02d (time_seconds showTime)
      ++ sprintf_02d (time_hundreths showTime)
  else
    sprintf_02d (time_minutes showTime) ++ ['-', '-', 'L', 'E']

/-- Line 77-93 of `render`: the colon. -/
def colonEffect (context : hpt_lapsplit_chrono_state_t) (fast : Nat) : Effect :=
  if context.running = LCF_RUN_STOPPED then Effect.watch_set_colon
  else if runningTime context fast % LCF_SUBSECOND_RATE < LCF_SUBSECOND_RATE / 2 then
    Effect.watch_set_colon
  else Effect.watch_clear_colon

/-- Line 95-121 of `render`: the lap indicator and the two characters at position 2. -/
def secondaryEffects (context : hpt_lapsplit_chrono_state_t) (showTime : Nat) :
    List Effect :=
  if context.mode = LCF_MODE_LAP then
    [Effect.watch_set_indicator_LAP,
     Effect.watch_display_string (sprintf_2d context.laps) 2]
  else if time_hours showTime = 0 then
    [Effect.watch_clear_indicator_LAP, Effect.watch_display_string [' ', ' '] 2]
  else if time_hours showTime > 39 then
    [Effect.watch_clear_indicator_LAP, Effect.watch_display_string [' ', 'E'] 2]
  else
    [Effect.watch_clear_indicator_LAP,
     Effect.watch_display_string (sprintf_2d (time_hours showTime)) 2]

/-- The function `render`: the calls it makes, in program order.  It writes no field of
the state. -/
def render (context : hpt_lapsplit_chrono_state_t) (lowEnergyUpdate : Bool)
    (fast : Nat) : List Effect :=
  (if context.running = LCF_RUN_RUNNING then [Effect.movement_hpt_get_fast] else [])
    ++ [Effect.watch_display_string
          (primaryField (showTime context fast) lowEnergyUpdate) 4]
    ++ [colonEffect context fast]
    ++ secondaryEffects context (showTime context fast)

/-! ## The button handlers -/

/-- The function `splitButton`: the new state and the calls made. -/
def splitButton (state : hpt_lapsplit_chrono_state_t) (now : Nat) :
    hpt_lapsplit_chrono_state_t × List Effect :=
  if state.display = LCF_DISPLAY_SPLIT then
    ({ state with display := LCF_DISPLAY_TIME }, [])
  else if state.running = LCF_RUN_STOPPED then
    if state.pausedTs ≠ 0 ∨ state.laps ≠ 0 then
      ({ state with pausedTs := 0, laps := 0 }, [])
    else
      ({ state with
          mode := if state.mode = LCF_MODE_LAP then LCF_MODE_SPLIT else LCF_MODE_LAP },
       [])
  else
    let s1 := { state with splitTs := sub64 now state.startTs,
                           display := LCF_DISPLAY_SPLIT }
    if state.mode = LCF_MODE_LAP then
      ({ s1 with startTs := now,
                 laps := if state.laps = 39 then 0 else (state.laps + 1) % U8 },
       [Effect.movement_hpt_get])
    else
      (s1, [Effect.movement_hpt_get])

/-- The function `startStopButton`: the new state and the calls made. -/
def startStopButton (state : hpt_lapsplit_chrono_state_t) (now : Nat) :
    hpt_lapsplit_chrono_state_t × List Effect :=
  if state.running = LCF_RUN_RUNNING then
    ({ state with running := LCF_RUN_STOPPED, pausedTs := sub64 now state.startTs },
     [Effect.movement_hpt_get, Effect.movement_hpt_release,
      Effect.movement_request_tick_frequency 1])
  else
    ({ state with running := LCF_RUN_RUNNING, startTs := sub64 now state.pausedTs },
     [Effect.movement_hpt_request, Effect.movement_hpt_get,
      Effect.movement_request_tick_frequency LCF_DISPLAY_UPDATE_RATE])

/-! ## Lifecycle functions and the event loop -/

/-- The state `memset` to zero by `hpt_lapsplit_chrono_face_setup`.  The numeric values
of the three enumerations are declared in the absent header, so the constants that are
encoded as zero are parameters. -/
def zeroState (r0 : LcfRun) (m0 : LcfMode) (d0 : LcfDisplay) :
    hpt_lapsplit_chrono_state_t :=
  { running := r0, mode := m0, display := d0,
    startTs := 0, pausedTs := 0, splitTs := 0, laps := 0 }

/-- The function `hpt_lapsplit_chrono_face_setup`: allocates and zeroes the state when
the context pointer is `NULL`, and leaves an existing state alone. -/
def hpt_lapsplit_chrono_face_setup (r0 : LcfRun) (m0 : LcfMode) (d0 : LcfDisplay)
    (context_ptr : Option hpt_lapsplit_chrono_state_t) :
    Option hpt_lapsplit_chrono_state_t :=
  match context_ptr with
  | none => some (zeroState r0 m0 d0)
  | some s => some s

/-- The function `hpt_lapsplit_chrono_face_activate`. -/
def hpt_lapsplit_chrono_face_activate (state : hpt_lapsplit_chrono_state_t) :
    hpt_lapsplit_chrono_state_t × List Effect :=
  ({ state with display := LCF_DISPLAY_TIME },
   [if state.running = LCF_RUN_RUNNING then
      Effect.movement_request_tick_frequency LCF_DISPLAY_UPDATE_RATE
    else Effect.movement_request_tick_frequency 1,
    Effect.watch_display_string ['C', 'H'] 0])

/-- Result of one call of the loop: new state, calls made, and the returned flag. -/
structure LoopResult where
  state : hpt_lapsplit_chrono_state_t
  effects : List Effect
  ret : Bool
deriving DecidableEq, Repr

/-- The function `hpt_lapsplit_chrono_face_loop`.  The value returned by the host's
default handler is not determined by this file; it is the parameter `dflt`. -/
def hpt_lapsplit_chrono_face_loop (event : movement_event_type_t)
    (state : hpt_lapsplit_chrono_state_t) (now fast : Nat) (dflt : Bool) : LoopResult :=
  match event with
  | EVENT_LIGHT_BUTTON_DOWN =>
    let r := splitButton state now
    { state := r.1, effects := r.2 ++ render r.1 false fast, ret := true }
  | EVENT_LIGHT_LONG_PRESS => { state := state, effects := [], ret := true }
  | EVENT_ALARM_BUTTON_DOWN =>
    let r := startStopButton state now
    { state := r.1, effects := r.2 ++ render r.1 false fast, ret := true }
  | EVENT_LOW_ENERGY_UPDATE =>
    { state := state, effects := render state true fast, ret := true }
  | EVENT_ACTIVATE => { state := state, effects := render state false fast, ret := true }
  | EVENT_TICK => { state := state, effects := render state false fast, ret := true }
  | EVENT_TIMEOUT =>
    { state := state,
      effects := if state.running = LCF_RUN_STOPPED then [Effect.movement_move_to_face 0]
                 else [],
      ret := true }
  | OTHER =>
    { state := state, effects := [Effect.movement_default_loop_handler], ret := dflt }

/-- The function `hpt_lapsplit_chrono_face_resign`. -/
def hpt_lapsplit_chrono_face_resign (state : hpt_lapsplit_chrono_state_t) :
    hpt_lapsplit_chrono_state_t × List Effect :=
  (state, [Effect.movement_request_tick_frequency 1])

/-- One operation of the face as the host invokes it: a lifecycle call or the delivery
of one event to the loop. -/
inductive FaceOp
  | activate
  | loop (event : movement_event_type_t)
  | resign
deriving DecidableEq, Repr

/-- One operation together with the counter values its reads would return: the exact
read `now`, the fast read `fast`, and the flag `dflt` the host's default handler
returns. -/
structure Step where
  op : FaceOp
  now : Nat
  fast : Nat
  dflt : Bool
deriving DecidableEq, Repr

/-- State after one operation of the face. -/
def stepState (s : hpt_lapsplit_chrono_state_t) (st : Step) :
    hpt_lapsplit_chrono_state_t :=
  match st.op with
  | FaceOp.activate => (hpt_lapsplit_chrono_face_activate s).1
  | FaceOp.loop e => (hpt_lapsplit_chrono_face_loop e s st.now st.fast st.dflt).state
  | FaceOp.resign => (hpt_lapsplit_chrono_face_resign s).1

/-- Calls made by one operation of the face. -/
def stepEffects (s : hpt_lapsplit_chrono_state_t) (st : Step) : List Effect :=
  match st.op with
  | FaceOp.activate => (hpt_lapsplit_chrono_face_activate s).2
  | FaceOp.loop e => (hpt_lapsplit_chrono_face_loop e s st.now st.fast st.dflt).effects
  | FaceOp.resign => (hpt_lapsplit_chrono_face_resign s).2

/-- State after a finite sequence of operations. -/
def runSteps (s : hpt_lapsplit_chrono_state_t) (steps : List Step) :
    hpt_lapsplit_chrono_state_t :=
  steps.foldl stepState s

/-! ## Derived scenarios -/

/-- One lap capture as the user performs it: a split-button press at counter reading
`now`, followed by the split-button press that dismisses the split view. -/
def lapCapture (s : hpt_lapsplit_chrono_state_t) (now : Nat) :
    hpt_lapsplit_chrono_state_t :=
  (splitButton (splitButton s now).1 now).1

/-- A sequence of lap captures, one per counter reading of the list. -/
def lapCaptures (s : hpt_lapsplit_chrono_state_t) (nows : List Nat) :
    hpt_lapsplit_chrono_state_t :=
  nows.foldl lapCapture s

/-- A stopped chronograph in SPLIT mode that has accumulated 5120 ticks and still shows
the split taken at 3072 ticks. -/
def stoppedShowingSplit : hpt_lapsplit_chrono_state_t :=
  { running := LCF_RUN_STOPPED, mode := LCF_MODE_SPLIT, display := LCF_DISPLAY_SPLIT,
    startTs := 0, pausedTs := 5120, splitTs := 3072, laps := 0 }

/-- The presses that lead to `stoppedShowingSplit`: start at reading 0, split at
reading 3072, stop at reading 5120. -/
def stoppedShowingSplitSteps : List Step :=
  [ { op := FaceOp.loop EVENT_ALARM_BUTTON_DOWN, now := 0, fast := 0, dflt := true },
    { op := FaceOp.loop EVENT_LIGHT_BUTTON_DOWN, now := 3072, fast := 3072, dflt := true },
    { op := FaceOp.loop EVENT_ALARM_BUTTON_DOWN, now := 5120, fast := 5120, dflt := true } ]

/-- Reference formatting of a value below 100 as two decimal digits, zero padded. -/
def twoDigits (n : Nat) : List Char := [Nat.digitChar (n / 10), Nat.digitChar (n % 10)]

/-- Reference formatting of a value below 100 right-aligned in two columns: a blank and
one digit below 10, two digits from 10 on. -/
def rightAligned2 (n : Nat) : List Char :=
  if n < 10 then [' ', Nat.digitChar n] else [Nat.digitChar (n / 10), Nat.digitChar (n % 10)]

/-- A stopped chronograph in SPLIT mode whose accumulated time is `2 ^ 42` ticks, that
is `2 ^ 32` seconds: the first tick count whose seconds do not fit the 32-bit `d`. -/
def pausedAt2pow42 : hpt_lapsplit_chrono_state_t :=
  { running := LCF_RUN_STOPPED, mode := LCF_MODE_SPLIT, display := LCF_DISPLAY_TIME,
    startTs := 0, pausedTs := 4398046511104, splitTs := 0, laps := 0 }

/-- The presses that lead to `pausedAt2pow42` from the zeroed stopped state in SPLIT
mode: start at reading 0, stop at reading `2 ^ 42`. -/
def pausedAt2pow42Steps : List Step :=
  [ { op := FaceOp.loop EVENT_ALARM_BUTTON_DOWN, now := 0, fast := 0, dflt := true },
    { op := FaceOp.loop EVENT_ALARM_BUTTON_DOWN, now := 4398046511104,
      fast := 4398046511104, dflt := true } ]

/-- The fields computed by `render` recombined into a tick count at rate
`R = LCF_SUBSECOND_RATE`:
`((hours*60 + minutes)*60 + seconds) * R + hundredths * R / 100`. -/
def recombine (t : Nat) : Nat :=
  ((time_hours t * 60 + time_minutes t) * 60 + time_seconds t) * LCF_SUBSECOND_RATE
    + time_hundreths t * LCF_SUBSECOND_RATE / 100

/-- The state a chronograph started at counter 0 from the zeroed stopped state is in. -/
def startedAtZero : hpt_lapsplit_chrono_state_t :=
  (startStopButton (zeroState LCF_RUN_STOPPED LCF_MODE_LAP LCF_DISPLAY_TIME) 0).1

/-! ## The timer reference count -/

/-- Effect of one call on the reference count of the timer: `movement_hpt_request`
adds one, `movement_hpt_release` takes one away, every other call leaves it alone. -/
def refDelta : Effect → Int
  | Effect.movement_hpt_request => 1
  | Effect.movement_hpt_release => -1
  | _ => 0

/-- Reference count after a list of calls, starting from the count `c`. -/
def refCountAfter (c : Int) : List Effect → Int
  | [] => c
  | e :: rest => refCountAfter (c + refDelta e) rest

/-- The reference counts passed through during a list of calls: the count after each
call, in program order. -/
def refCountsDuring (c : Int) : List Effect → List Int
  | [] => []
  | e :: rest => (c + refDelta e) :: refCountsDuring (c + refDelta e) rest

/-- Whether a call reads the counter: the exact read and the fast read. -/
def isCounterRead : Effect → Bool
  | Effect.movement_hpt_get => true
  | Effect.movement_hpt_get_fast => true
  | _ => false

/-- Whether every counter read of a list of calls happens while the reference count,
which starts at `c` and follows the requests and releases of the list, is at least 1. -/
def readsWhileHeld (c : Int) : List Effect → Bool
  | [] => true
  | e :: rest =>
    (if isCounterRead e then decide (1 ≤ c) else true)
      && readsWhileHeld (c + refDelta e) rest

/-- All calls made during a finite sequence of operations, in program order. -/
def runEffects (s : hpt_lapsplit_chrono_state_t) : List Step → List Effect
  | [] => []
  | st :: rest => stepEffects s st ++ runEffects (stepState s st) rest

/-- The reference count that matches a state: 1 when running, 0 when stopped. -/
def refOf (s : hpt_lapsplit_chrono_state_t) : Int :=
  if s.running = LCF_RUN_RUNNING then 1 else 0

/-- A stopped chronograph in LAP mode that shows its accumulated time and one lap. -/
def stoppedWithLap : hpt_lapsplit_chrono_state_t :=
  { running := LCF_RUN_STOPPED, mode := LCF_MODE_LAP, display := LCF_DISPLAY_TIME,
    startTs := 1000, pausedTs := 1000, splitTs := 1000, laps := 1 }

/-- The presses that lead to `stoppedWithLap` from the zeroed stopped state in LAP
mode: start at reading 0, lap at reading 1000, dismiss the split, stop at reading 2000. -/
def stoppedWithLapSteps : List Step :=
  [ { op := FaceOp.loop EVENT_ALARM_BUTTON_DOWN, now := 0, fast := 0, dflt := true },
    { op := FaceOp.loop EVENT_LIGHT_BUTTON_DOWN, now := 1000, fast := 1000, dflt := true },
    { op := FaceOp.loop EVENT_LIGHT_BUTTON_DOWN, now := 1500, fast := 1500, dflt := true },
    { op := FaceOp.loop EVENT_ALARM_BUTTON_DOWN, now := 2000, fast := 2000, dflt := true } ]

/-- A running chronograph in SPLIT mode that shows the split taken at 3072 ticks. -/
def runningShowingSplit : hpt_lapsplit_chrono_state_t :=
  { running := LCF_RUN_RUNNING, mode := LCF_MODE_SPLIT, display := LCF_DISPLAY_SPLIT,
    startTs := 0, pausedTs := 0, splitTs := 3072, laps := 0 }

/-- The presses that lead to `runningShowingSplit` from the zeroed stopped state in
SPLIT mode: start at reading 0, split at reading 3072. -/
def runningShowingSplitSteps : List Step :=
  [ { op := FaceOp.loop EVENT_ALARM_BUTTON_DOWN, now := 0, fast := 0, dflt := true },
    { op := FaceOp.loop EVENT_LIGHT_BUTTON_DOWN, now := 3072, fast := 3072, dflt := true } ]

/-! ## Theorems -/

theorem U64_eq : U64 = 2 ^ 64 := by decide

theorem U32_eq : U32 = 2 ^ 32 := by decide

theorem sub64_lt (a b : Nat) : sub64 a b < U64 := by
  unfold sub64 U64; omega

theorem sub64_self (a : Nat) : sub64 a a = 0 := by
  unfold sub64 U64; omega

theorem sub64_zero_right (a : Nat) (h : a < U64) : sub64 a 0 = a := by
  unfold sub64 U64 at *; omega

/-- Resuming at reading `a` and stopping at reading `b` adds `b - a` to the
accumulated time, modulo `2 ^ 64`. -/
theorem sub64_resume_stop (a b p : Nat) :
    sub64 b (sub64 a p) = (p + sub64 b a) % U64 := by
  unfold sub64 U64; omega

/-- C1: from a stopped state with accumulated time `P`, pressing start-stop at counter
reading `a` and again at reading `b` leaves the chronograph stopped with
`pausedTs = P + (b - a)` in 64-bit wrap-around arithmetic; when `b = a` the accumulated
time is `P` again, whatever `P` and `a` are (also when `a < P`). -/
theorem startStop_twice_preserves_elapsed (s : hpt_lapsplit_chrono_state_t) (a b : Nat)
    (hstop : s.running = LCF_RUN_STOPPED) (hP : s.pausedTs < U64) :
    (startStopButton (startStopButton s a).1 b).1.running = LCF_RUN_STOPPED ∧
    (startStopButton (startStopButton s a).1 b).1.pausedTs
      = (s.pausedTs + sub64 b a) % U64 ∧
    (b = a → (startStopButton (startStopButton s a).1 b).1.pausedTs = s.pausedTs) := by
  have h1 : (startStopButton s a).1
      = { s with running := LCF_RUN_RUNNING, startTs := sub64 a s.pausedTs } := by
    simp [startStopButton, hstop]
  rw [h1]
  refine ⟨by simp [startStopButton], ?_, ?_⟩
  · simp [startStopButton, sub64_resume_stop]
  · intro hba
    subst hba
    simp only [startStopButton, if_true, sub64_resume_stop, sub64_self, Nat.add_zero]
    exact Nat.mod_eq_of_lt hP

/-- Witness of C1: accumulated time 5000, counter reset to zero on resume (`a = 0 < P`),
stopped again at the same reading. -/
theorem startStop_twice_preserves_elapsed_witness :
    (startStopButton (startStopButton
      { running := LCF_RUN_STOPPED, mode := LCF_MODE_LAP, display := LCF_DISPLAY_TIME,
        startTs := 0, pausedTs := 5000, splitTs := 0, laps := 0 } 0).1 0).1.pausedTs
      = 5000 :=
  (startStop_twice_preserves_elapsed
    { running := LCF_RUN_STOPPED, mode := LCF_MODE_LAP, display := LCF_DISPLAY_TIME,
      startTs := 0, pausedTs := 5000, splitTs := 0, laps := 0 } 0 0 rfl
    (by decide)).2.2 rfl

/-- The split-button press of a lap capture, taken while running in LAP mode with the
running time displayed, advances the lap count by one modulo 40 and shows the split. -/
theorem splitButton_capture_lap (t : hpt_lapsplit_chrono_state_t) (now : Nat)
    (hrun : t.running = LCF_RUN_RUNNING) (hmode : t.mode = LCF_MODE_LAP)
    (hdisp : t.display = LCF_DISPLAY_TIME) (hl : t.laps ≤ 39) :
    (splitButton t now).1.laps = (t.laps + 1) % 40 ∧
    (splitButton t now).1.running = LCF_RUN_RUNNING ∧
    (splitButton t now).1.mode = LCF_MODE_LAP ∧
    (splitButton t now).1.display = LCF_DISPLAY_SPLIT := by
  simp only [splitButton, hrun, hmode, hdisp, if_true, if_false, reduceCtorEq, U8]
  refine ⟨?_, trivial, trivial, trivial⟩
  split <;> omega

/-- The split-button press that dismisses the split view changes the display only. -/
theorem splitButton_dismiss (t : hpt_lapsplit_chrono_state_t) (now : Nat)
    (hdisp : t.display = LCF_DISPLAY_SPLIT) :
    splitButton t now = ({ t with display := LCF_DISPLAY_TIME }, []) := by
  simp [splitButton, hdisp]

/-- One lap capture keeps the chronograph running in LAP mode with the running time
displayed and advances the lap count by one modulo 40. -/
theorem lapCapture_spec (t : hpt_lapsplit_chrono_state_t) (now : Nat)
    (hrun : t.running = LCF_RUN_RUNNING) (hmode : t.mode = LCF_MODE_LAP)
    (hdisp : t.display = LCF_DISPLAY_TIME) (hl : t.laps ≤ 39) :
    (lapCapture t now).laps = (t.laps + 1) % 40 ∧
    (lapCapture t now).running = LCF_RUN_RUNNING ∧
    (lapCapture t now).mode = LCF_MODE_LAP ∧
    (lapCapture t now).display = LCF_DISPLAY_TIME := by
  obtain ⟨h1, h2, h3, h4⟩ := splitButton_capture_lap t now hrun hmode hdisp hl
  unfold lapCapture
  rw [splitButton_dismiss _ now h4]
  exact ⟨h1, h2, h3, rfl⟩

/-- After any sequence of lap captures the lap count is the start count plus the number
of captures, modulo 40. -/
theorem lapCaptures_laps (nows : List Nat) :
    ∀ t : hpt_lapsplit_chrono_state_t, t.running = LCF_RUN_RUNNING →
      t.mode = LCF_MODE_LAP → t.display = LCF_DISPLAY_TIME → t.laps ≤ 39 →
      (lapCaptures t nows).laps = (t.laps + nows.length) % 40 := by
  induction nows with
  | nil =>
    intro t _ _ _ hl
    simp only [lapCaptures, List.foldl_nil, List.length_nil, Nat.add_zero]
    omega
  | cons now rest ih =>
    intro t hrun hmode hdisp hl
    obtain ⟨h1, h2, h3, h4⟩ := lapCapture_spec t now hrun hmode hdisp hl
    have hl1 : (lapCapture t now).laps ≤ 39 := by omega
    have := ih (lapCapture t now) h2 h3 h4 hl1
    simp only [lapCaptures, List.foldl_cons, List.length_cons] at this ⊢
    rw [this, h1]
    omega

/-- C2: starting from a running state in LAP mode with `laps = 0` and the running time
displayed, after `k` lap captures at arbitrary counter readings (each a split-button
press followed by the press that dismisses the split view) the lap count is `k` for
every `k ≤ 39` and `0` for `k = 40`; and a single capture maps `laps = n ≤ 39` to
`(n + 1) mod 40`. -/
theorem lap_counter_wraps_at_40 (s : hpt_lapsplit_chrono_state_t) (nows : List Nat)
    (hrun : s.running = LCF_RUN_RUNNING) (hmode : s.mode = LCF_MODE_LAP)
    (hdisp : s.display = LCF_DISPLAY_TIME) (hl : s.laps = 0) :
    (nows.length ≤ 39 → (lapCaptures s nows).laps = nows.length) ∧
    (nows.length = 40 → (lapCaptures s nows).laps = 0) ∧
    (∀ (t : hpt_lapsplit_chrono_state_t) (now : Nat), t.running = LCF_RUN_RUNNING →
      t.mode = LCF_MODE_LAP → t.display = LCF_DISPLAY_TIME → t.laps ≤ 39 →
      (splitButton t now).1.laps = (t.laps + 1) % 40) := by
  have h := lapCaptures_laps nows s hrun hmode hdisp (by omega)
  rw [hl] at h
  refine ⟨fun hk => by omega, fun hk => by omega, ?_⟩
  intro t now h1 h2 h3 h4
  exact (splitButton_capture_lap t now h1 h2 h3 h4).1

/-- Witness of C2: forty lap captures at the readings 1000, 2000, ..., 40000 from a
freshly started chronograph in LAP mode bring the lap count back to 0. -/
theorem lap_counter_wraps_at_40_witness :
    (lapCaptures
      { running := LCF_RUN_RUNNING, mode := LCF_MODE_LAP, display := LCF_DISPLAY_TIME,
        startTs := 0, pausedTs := 0, splitTs := 0, laps := 0 }
      ((List.range 40).map (fun i => 1000 * (i + 1)))).laps = 0 :=
  (lap_counter_wraps_at_40
    { running := LCF_RUN_RUNNING, mode := LCF_MODE_LAP, display := LCF_DISPLAY_TIME,
      startTs := 0, pausedTs := 0, splitTs := 0, laps := 0 }
    ((List.range 40).map (fun i => 1000 * (i + 1))) rfl rfl rfl rfl).2.1 (by simp)

/-- C3: a split-button press while running with the running time displayed, at counter
reading `now`, sets `splitTs = now - startTs` (64-bit wrap-around) and `display = SPLIT`
and leaves `pausedTs`, `running` and `mode` alone; in LAP mode `startTs` becomes `now`,
so the running time read at the same instant is 0, and the lap count advances (39 goes
to 0); in SPLIT mode `startTs` and `laps` are unchanged as well. -/
theorem splitButton_running (s : hpt_lapsplit_chrono_state_t) (now : Nat)
    (hrun : s.running = LCF_RUN_RUNNING) (hdisp : s.display = LCF_DISPLAY_TIME) :
    (splitButton s now).1.splitTs = sub64 now s.startTs ∧
    (splitButton s now).1.display = LCF_DISPLAY_SPLIT ∧
    (splitButton s now).1.pausedTs = s.pausedTs ∧
    (splitButton s now).1.running = s.running ∧
    (splitButton s now).1.mode = s.mode ∧
    (splitButton s now).2 = [Effect.movement_hpt_get] ∧
    (s.mode = LCF_MODE_LAP →
      (splitButton s now).1.startTs = now ∧
      runningTime (splitButton s now).1 now = 0 ∧
      (splitButton s now).1.laps = (if s.laps = 39 then 0 else (s.laps + 1) % U8) ∧
      (s.laps ≤ 39 → (splitButton s now).1.laps = (s.laps + 1) % 40)) ∧
    (s.mode = LCF_MODE_SPLIT →
      (splitButton s now).1.startTs = s.startTs ∧
      (splitButton s now).1.laps = s.laps) := by
  cases hm : s.mode
  · simp only [splitButton, hrun, hdisp, hm, if_true, if_false, reduceCtorEq,
      runningTime, sub64_self, true_and, and_true, implies_true, false_implies, U8]
    intro hl
    split <;> omega
  · simp [splitButton, hrun, hdisp, hm]

/-- Witness of C3: running in LAP mode since reading 100 with 39 laps, split pressed at
reading 5000. -/
theorem splitButton_running_witness :
    (splitButton
      { running := LCF_RUN_RUNNING, mode := LCF_MODE_LAP, display := LCF_DISPLAY_TIME,
        startTs := 100, pausedTs := 0, splitTs := 0, laps := 39 } 5000).1.splitTs
      = sub64 5000 100 :=
  (splitButton_running
    { running := LCF_RUN_RUNNING, mode := LCF_MODE_LAP, display := LCF_DISPLAY_TIME,
      startTs := 100, pausedTs := 0, splitTs := 0, laps := 39 } 5000 rfl rfl).1

/-- C4: in every state that displays the split, a split-button press sets
`display = TIME`, leaves `startTs`, `pausedTs`, `splitTs`, `laps`, `mode` and `running`
unchanged and makes no call at all, in particular no counter read: the result does not
depend on the counter. -/
theorem splitButton_dismiss_frame (s : hpt_lapsplit_chrono_state_t) (now : Nat)
    (hdisp : s.display = LCF_DISPLAY_SPLIT) :
    (splitButton s now).1.display = LCF_DISPLAY_TIME ∧
    (splitButton s now).1.startTs = s.startTs ∧
    (splitButton s now).1.pausedTs = s.pausedTs ∧
    (splitButton s now).1.splitTs = s.splitTs ∧
    (splitButton s now).1.laps = s.laps ∧
    (splitButton s now).1.mode = s.mode ∧
    (splitButton s now).1.running = s.running ∧
    (splitButton s now).2 = [] ∧
    (∀ other : Nat, splitButton s other = splitButton s now) := by
  simp [splitButton, hdisp]

/-- Witness of C4: a stopped chronograph in LAP mode that still shows a split. -/
theorem splitButton_dismiss_frame_witness :
    (splitButton
      { running := LCF_RUN_STOPPED, mode := LCF_MODE_LAP, display := LCF_DISPLAY_SPLIT,
        startTs := 7, pausedTs := 2048, splitTs := 1024, laps := 3 } 99).1.display
      = LCF_DISPLAY_TIME :=
  (splitButton_dismiss_frame
    { running := LCF_RUN_STOPPED, mode := LCF_MODE_LAP, display := LCF_DISPLAY_SPLIT,
      startTs := 7, pausedTs := 2048, splitTs := 1024, laps := 3 } 99 rfl).1

/-- C5, as stated, fails: the state `stoppedShowingSplit`, reached from the zeroed
stopped state by start, split, stop, is stopped with a non-zero accumulated time, yet
a split-button press leaves `pausedTs` at 5120 (it only dismisses the split view). -/
theorem splitButton_stopped_showing_split_keeps_time :
    runSteps (zeroState LCF_RUN_STOPPED LCF_MODE_SPLIT LCF_DISPLAY_TIME)
      stoppedShowingSplitSteps = stoppedShowingSplit ∧
    stoppedShowingSplit.running = LCF_RUN_STOPPED ∧
    (stoppedShowingSplit.pausedTs ≠ 0 ∨ stoppedShowingSplit.laps ≠ 0) ∧
    (splitButton stoppedShowingSplit 6000).1.pausedTs = 5120 ∧
    ¬ ((splitButton stoppedShowingSplit 6000).1.pausedTs = 0 ∧
       (splitButton stoppedShowingSplit 6000).1.laps = 0) := by
  decide

/-- C5, amended: in every stopped state that displays the running time
(`display = TIME`) with `pausedTs ≠ 0` or `laps ≠ 0`, one split-button press sets
`pausedTs` and `laps` to zero and changes nothing else; a second split-button press
toggles `mode` between LAP and SPLIT and leaves `startTs`, `pausedTs`, `splitTs` and
`laps` unchanged. -/
theorem splitButton_clear_then_toggle (s : hpt_lapsplit_chrono_state_t) (now1 now2 : Nat)
    (hstop : s.running = LCF_RUN_STOPPED) (hdisp : s.display = LCF_DISPLAY_TIME)
    (hnz : s.pausedTs ≠ 0 ∨ s.laps ≠ 0) :
    (splitButton s now1).1 = { s with pausedTs := 0, laps := 0 } ∧
    (splitButton (splitButton s now1).1 now2).1.mode ≠ (splitButton s now1).1.mode ∧
    (splitButton (splitButton s now1).1 now2).1.mode
      = (if s.mode = LCF_MODE_LAP then LCF_MODE_SPLIT else LCF_MODE_LAP) ∧
    (splitButton (splitButton s now1).1 now2).1.startTs = (splitButton s now1).1.startTs ∧
    (splitButton (splitButton s now1).1 now2).1.pausedTs = 0 ∧
    (splitButton (splitButton s now1).1 now2).1.splitTs = (splitButton s now1).1.splitTs ∧
    (splitButton (splitButton s now1).1 now2).1.laps = 0 := by
  have h1 : (splitButton s now1).1 = { s with pausedTs := 0, laps := 0 } := by
    simp [splitButton, hstop, hdisp, hnz]
  rw [h1]
  cases hm : s.mode <;> simp [splitButton, hstop, hdisp, hm]

/-- Witness of C5 amended: a stopped chronograph showing 2048 ticks and 3 laps. -/
theorem splitButton_clear_then_toggle_witness :
    (splitButton
      { running := LCF_RUN_STOPPED, mode := LCF_MODE_LAP, display := LCF_DISPLAY_TIME,
        startTs := 7, pausedTs := 2048, splitTs := 1024, laps := 3 } 10).1
      = { running := LCF_RUN_STOPPED, mode := LCF_MODE_LAP, display := LCF_DISPLAY_TIME,
          startTs := 7, pausedTs := 0, splitTs := 1024, laps := 0 } :=
  (splitButton_clear_then_toggle
    { running := LCF_RUN_STOPPED, mode := LCF_MODE_LAP, display := LCF_DISPLAY_TIME,
      startTs := 7, pausedTs := 2048, splitTs := 1024, laps := 3 } 10 11 rfl rfl
    (Or.inl (by decide))).1

/-- C6: for every state and every operation of the face (any event delivered to the
loop, activate, resign), `mode` after the operation differs from `mode` before exactly
when the operation is the split-button event and the state before has `display = TIME`,
`running = STOPPED`, `pausedTs = 0` and `laps = 0`; in that case `mode` flips between
LAP and SPLIT and no other field changes. -/
theorem mode_changes_only_stopped_and_zeroed (s : hpt_lapsplit_chrono_state_t)
    (st : Step) :
    ((stepState s st).mode ≠ s.mode ↔
      (st.op = FaceOp.loop EVENT_LIGHT_BUTTON_DOWN ∧ s.display = LCF_DISPLAY_TIME ∧
        s.running = LCF_RUN_STOPPED ∧ s.pausedTs = 0 ∧ s.laps = 0)) ∧
    ((st.op = FaceOp.loop EVENT_LIGHT_BUTTON_DOWN ∧ s.display = LCF_DISPLAY_TIME ∧
        s.running = LCF_RUN_STOPPED ∧ s.pausedTs = 0 ∧ s.laps = 0) →
      stepState s st
        = { s with
            mode := if s.mode = LCF_MODE_LAP then LCF_MODE_SPLIT else LCF_MODE_LAP }) := by
  obtain ⟨op, now, fast, dflt⟩ := st
  obtain ⟨r, m, d, sT, pT, spT, l⟩ := s
  cases op with
  | activate => simp [stepState, hpt_lapsplit_chrono_face_activate]
  | resign => simp [stepState, hpt_lapsplit_chrono_face_resign]
  | loop e =>
    cases e <;> cases r <;> cases m <;> cases d <;>
      simp [stepState, hpt_lapsplit_chrono_face_loop, splitButton, startStopButton] <;>
      (try split) <;> simp_all <;> tauto

/-- Witness of C6: the split-button event on a stopped, zeroed chronograph in LAP mode
switches it to SPLIT mode. -/
theorem mode_changes_only_stopped_and_zeroed_witness :
    stepState
      { running := LCF_RUN_STOPPED, mode := LCF_MODE_LAP, display := LCF_DISPLAY_TIME,
        startTs := 7, pausedTs := 0, splitTs := 1024, laps := 0 }
      { op := FaceOp.loop EVENT_LIGHT_BUTTON_DOWN, now := 1, fast := 1, dflt := true }
      = { running := LCF_RUN_STOPPED, mode := LCF_MODE_SPLIT, display := LCF_DISPLAY_TIME,
          startTs := 7, pausedTs := 0, splitTs := 1024, laps := 0 } :=
  (mode_changes_only_stopped_and_zeroed
    { running := LCF_RUN_STOPPED, mode := LCF_MODE_LAP, display := LCF_DISPLAY_TIME,
      startTs := 7, pausedTs := 0, splitTs := 1024, laps := 0 }
    { op := FaceOp.loop EVENT_LIGHT_BUTTON_DOWN, now := 1, fast := 1, dflt := true }).2
    ⟨rfl, rfl, rfl, rfl, rfl⟩

/-- The bound `laps ≤ 39` is kept by the split button. -/
theorem splitButton_laps_le (s : hpt_lapsplit_chrono_state_t) (now : Nat)
    (h : s.laps ≤ 39) : (splitButton s now).1.laps ≤ 39 := by
  unfold splitButton U8
  split_ifs <;> simp only [] <;> omega

/-- The start-stop button does not write `laps`. -/
theorem startStopButton_laps (s : hpt_lapsplit_chrono_state_t) (now : Nat) :
    (startStopButton s now).1.laps = s.laps := by
  unfold startStopButton
  split_ifs <;> rfl

/-- The bound `laps ≤ 39` is kept by every operation of the face. -/
theorem stepState_laps_le (s : hpt_lapsplit_chrono_state_t) (st : Step)
    (h : s.laps ≤ 39) : (stepState s st).laps ≤ 39 := by
  obtain ⟨op, now, fast, dflt⟩ := st
  cases op with
  | activate => simpa [stepState, hpt_lapsplit_chrono_face_activate] using h
  | resign => simpa [stepState, hpt_lapsplit_chrono_face_resign] using h
  | loop e =>
    cases e <;> simp only [stepState, hpt_lapsplit_chrono_face_loop]
    · exact splitButton_laps_le s now h
    · exact h
    · rw [startStopButton_laps]; exact h
    all_goals exact h

/-- The bound `laps ≤ 39` is kept by every finite sequence of operations. -/
theorem runSteps_laps_le (steps : List Step) :
    ∀ s : hpt_lapsplit_chrono_state_t, s.laps ≤ 39 → (runSteps s steps).laps ≤ 39 := by
  induction steps with
  | nil => intro s h; simpa [runSteps] using h
  | cons st rest ih =>
    intro s h
    simpa [runSteps] using ih (stepState s st) (stepState_laps_le s st h)

/-- C7: setup creates the zero-initialised state, and in every state reachable from it
by a finite sequence of operations of the face (activate, resign, and every event
delivered to the loop, with arbitrary counter readings) `0 ≤ laps ≤ 39`; this holds
whichever enumeration constants are encoded as zero. -/
theorem laps_in_range (r0 : LcfRun) (m0 : LcfMode) (d0 : LcfDisplay)
    (steps : List Step) :
    hpt_lapsplit_chrono_face_setup r0 m0 d0 none = some (zeroState r0 m0 d0) ∧
    0 ≤ (runSteps (zeroState r0 m0 d0) steps).laps ∧
    (runSteps (zeroState r0 m0 d0) steps).laps ≤ 39 :=
  ⟨rfl, Nat.zero_le _, runSteps_laps_le steps _ (by simp [zeroState])⟩

/-- The conversion `"%02d"` writes exactly two digits for every value below 100. -/
theorem sprintf_02d_eq_twoDigits (n : Nat) (h : n < 100) :
    sprintf_02d n = twoDigits n := by
  interval_cases n <;> rfl

/-- The conversion `"%2d"` right-aligns every value below 100 in two columns. -/
theorem sprintf_2d_eq_rightAligned2 (n : Nat) (h : n < 100) :
    sprintf_2d n = rightAligned2 n := by
  interval_cases n <;> rfl

/-- Below `2 ^ 42` ticks the 32-bit `d` holds the full number of seconds. -/
theorem d_seconds_of_lt (t : Nat) (h : t < 2 ^ 42) :
    d_seconds t = t / 1024 := by
  unfold d_seconds LCF_SUBSECOND_RATE U32
  omega

/-- The hundredths are `(t mod 1024) * 100 / 1024` for every tick count, and at most 99:
neither the cast to `uint16_t` nor the one to `uint8_t` loses anything. -/
theorem time_hundreths_eq (t : Nat) :
    time_hundreths t = (t % 1024) * 100 / 1024 ∧ time_hundreths t ≤ 99 := by
  unfold time_hundreths LCF_SUBSECOND_RATE U16 U8
  have h1 : t % 1024 < 1024 := Nat.mod_lt _ (by decide)
  have h2 : t % 1024 % 65536 = t % 1024 := Nat.mod_eq_of_lt (by omega)
  have h3 : t % 1024 * 100 / 1024 ≤ 99 := by omega
  rw [h2, Nat.mod_eq_of_lt (by omega)]
  exact ⟨rfl, h3⟩

/-- Seconds and minutes as `render` computes them are below 60 for every tick count. -/
theorem time_seconds_minutes_lt (t : Nat) :
    time_seconds t < 60 ∧ time_minutes t < 60 := by
  unfold time_seconds time_minutes U8
  omega

/-- Below `2 ^ 42` ticks the primary field of a normal render is the six characters
MMSSHH, each pair zero-padded decimal, with hundredths `((t mod 1024) * 100) / 1024`,
seconds `(t / 1024) mod 60` and minutes `(t / 1024 / 60) mod 60` computed on the full
tick count, and `render` writes it at position 4. -/
theorem render_primary_of_lt (s : hpt_lapsplit_chrono_state_t) (fast : Nat)
    (h : showTime s fast < 2 ^ 42) :
    Effect.watch_display_string
      (twoDigits (showTime s fast / 1024 / 60 % 60) ++
       twoDigits (showTime s fast / 1024 % 60) ++
       twoDigits ((showTime s fast % 1024) * 100 / 1024)) 4 ∈ render s false fast := by
  have hd := d_seconds_of_lt _ h
  have hh := time_hundreths_eq (showTime s fast)
  have hsm := time_seconds_minutes_lt (showTime s fast)
  have hs : time_seconds (showTime s fast) = showTime s fast / 1024 % 60 := by
    unfold time_seconds U8; rw [hd]; omega
  have hm : time_minutes (showTime s fast) = showTime s fast / 1024 / 60 % 60 := by
    unfold time_minutes U8; rw [hd]; omega
  have hp : primaryField (showTime s fast) false
      = twoDigits (showTime s fast / 1024 / 60 % 60) ++
        twoDigits (showTime s fast / 1024 % 60) ++
        twoDigits ((showTime s fast % 1024) * 100 / 1024) := by
    simp only [primaryField, Bool.not_false, if_true]
    rw [sprintf_02d_eq_twoDigits _ (by omega), sprintf_02d_eq_twoDigits _ (by omega),
      sprintf_02d_eq_twoDigits _ (by omega), hs, hm, hh.1]
  simp [render, hp]

/-- Scenario of the specification: zeroed and stopped, started at counter 0, rendered at
counter 1536: the primary field is "000150". -/
theorem render_scenario_1536 :
    Effect.watch_display_string ['0', '0', '0', '1', '5', '0'] 4 ∈
      render (startStopButton (zeroState LCF_RUN_STOPPED LCF_MODE_LAP LCF_DISPLAY_TIME) 0).1
        false 1536 := by
  decide

/-- C8, evaluation of `render` at the failing input: the chronograph stopped at
`2 ^ 42` ticks (reached by start at reading 0 and stop at reading `2 ^ 42`) is rendered
with the primary field "000000", because `uint32_t d` keeps only the low 32 bits of the
`2 ^ 32` seconds; on the full tick count the seconds are 16 and the minutes 28. -/
theorem render_primary_truncated_at_2pow42 :
    runSteps (zeroState LCF_RUN_STOPPED LCF_MODE_SPLIT LCF_DISPLAY_TIME)
      pausedAt2pow42Steps = pausedAt2pow42 ∧
    showTime pausedAt2pow42 0 = 2 ^ 42 ∧
    render pausedAt2pow42 false 0
      = [Effect.watch_display_string ['0', '0', '0', '0', '0', '0'] 4,
         Effect.watch_set_colon,
         Effect.watch_clear_indicator_LAP,
         Effect.watch_display_string [' ', ' '] 2] ∧
    time_seconds (2 ^ 42) = 0 ∧ 2 ^ 42 / 1024 % 60 = 16 ∧
    time_minutes (2 ^ 42) = 0 ∧ 2 ^ 42 / 1024 / 60 % 60 = 28 := by
  decide

/-- Below `2 ^ 42` ticks the hour count of `render` is the full `t / 1024 / 3600`,
saturated at 40. -/
theorem time_hours_of_lt (t : Nat) (h : t < 2 ^ 42) :
    time_hours t = min (t / 1024 / 3600) 40 := by
  have hd := d_seconds_of_lt t h
  simp only [time_hours, hd, U8]
  split <;> omega

/-- Below `2 ^ 42` ticks the secondary field follows the full hour count
`hours = t / 1024 / 3600`: in SPLIT mode the LAP indicator is cleared and position 2
receives two blanks for `hours = 0`, the right-aligned numeral for `1 ≤ hours ≤ 39` and
" E" for `hours > 39`; in LAP mode the LAP indicator is set and the lap count written. -/
theorem secondaryEffects_of_lt (s : hpt_lapsplit_chrono_state_t) (t : Nat)
    (h : t < 2 ^ 42) :
    (s.mode = LCF_MODE_SPLIT →
      secondaryEffects s t
        = [Effect.watch_clear_indicator_LAP,
           Effect.watch_display_string
             (if t / 1024 / 3600 = 0 then [' ', ' ']
              else if t / 1024 / 3600 ≤ 39 then rightAligned2 (t / 1024 / 3600)
              else [' ', 'E']) 2]) ∧
    (s.mode = LCF_MODE_LAP →
      secondaryEffects s t
        = [Effect.watch_set_indicator_LAP,
           Effect.watch_display_string (sprintf_2d s.laps) 2]) := by
  have hh := time_hours_of_lt t h
  constructor
  · intro hm
    simp only [secondaryEffects, hm, reduceCtorEq, if_false, hh]
    by_cases h0 : t / 1024 / 3600 = 0
    · simp [h0]
    · by_cases h39 : t / 1024 / 3600 ≤ 39
      · have e : min (t / 1024 / 3600) 40 = t / 1024 / 3600 := by omega
        rw [e, if_neg h0, if_neg (by omega), if_neg h0, if_pos h39,
          sprintf_2d_eq_rightAligned2 _ (by omega)]
      · have e : min (t / 1024 / 3600) 40 = 40 := by omega
        rw [e, if_neg h0, if_neg h39]
        simp
  · intro hm
    simp [secondaryEffects, hm]

/-- C9, evaluation of `render` at the failing input: for the chronograph stopped in
SPLIT mode at `2 ^ 42` ticks the full hour count is 1193046, above 39, yet `render`
computes `time_hours = 0` from the truncated `uint32_t d` and writes two blanks at
position 2 instead of the saturation marker " E". -/
theorem render_hours_truncated_at_2pow42 :
    pausedAt2pow42.mode = LCF_MODE_SPLIT ∧
    showTime pausedAt2pow42 0 = 4398046511104 ∧
    4398046511104 / 1024 / 3600 = 1193046 ∧
    time_hours 4398046511104 = 0 ∧
    secondaryEffects pausedAt2pow42 (showTime pausedAt2pow42 0)
      = [Effect.watch_clear_indicator_LAP, Effect.watch_display_string [' ', ' '] 2] ∧
    Effect.watch_display_string [' ', 'E'] 2 ∉ render pausedAt2pow42 false 0 := by
  decide

/-- C10, as stated, fails: at `t = 1`, inside the non-saturated range, every field is 0
and the recombination gives 0, not 1. -/
theorem recombine_one_ne :
    1 < 40 * 3600 * 1024 ∧ time_hours 1 = 0 ∧ time_minutes 1 = 0 ∧ time_seconds 1 = 0 ∧
    time_hundreths 1 = 0 ∧ recombine 1 = 0 ∧ recombine 1 ≠ 1 := by
  decide

/-- C10, amended: for every tick count `t < 40 * 3600 * 1024` the fields computed by
`render` recombine to a tick count `r` with `r ≤ t ≤ r + 11`; the whole seconds are
exact, `(hours*60 + minutes)*60 + seconds = t / 1024`, and `r = t` holds exactly when
`t` is a multiple of 256 ticks (a quarter of a second). -/
theorem recombine_within_hundredth (t : Nat) (h : t < 40 * 3600 * 1024) :
    recombine t ≤ t ∧ t ≤ recombine t + 11 ∧
    (time_hours t * 60 + time_minutes t) * 60 + time_seconds t = t / 1024 ∧
    (recombine t = t ↔ t % 256 = 0) := by
  have hd := d_seconds_of_lt t (by omega)
  have hh := (time_hundreths_eq t).1
  have hhr := time_hours_of_lt t (by omega)
  have hs : time_seconds t = t / 1024 % 60 := by
    unfold time_seconds U8; rw [hd]; omega
  have hm : time_minutes t = t / 1024 / 60 % 60 := by
    unfold time_minutes U8; rw [hd]; omega
  have hhr2 : time_hours t = t / 1024 / 3600 := by omega
  have hw : (time_hours t * 60 + time_minutes t) * 60 + time_seconds t = t / 1024 := by
    rw [hhr2, hm, hs]; omega
  unfold recombine LCF_SUBSECOND_RATE
  rw [hw, hh]
  refine ⟨?_, ?_, rfl, ?_⟩ <;> omega

/-- Witness of C10 amended: one and a half seconds, 1536 ticks, recombine exactly. -/
theorem recombine_within_hundredth_witness : recombine 1536 = 1536 :=
  (recombine_within_hundredth 1536 (by decide)).2.2.2.mpr (by decide)

/-- C11: for every state and counter reading `render` makes exactly one colon call:
it sets the colon when stopped; when running it sets the colon if
`(fast_read - startTs) mod 1024 < 512` and clears it otherwise.  Scenario: started at
counter 0 and rendered at counter 1536, the colon is cleared. -/
theorem render_colon_rule (s : hpt_lapsplit_chrono_state_t) (lowEnergyUpdate : Bool)
    (fast : Nat) :
    (s.running = LCF_RUN_STOPPED →
      Effect.watch_set_colon ∈ render s lowEnergyUpdate fast ∧
      Effect.watch_clear_colon ∉ render s lowEnergyUpdate fast) ∧
    (s.running = LCF_RUN_RUNNING → sub64 fast s.startTs % 1024 < 512 →
      Effect.watch_set_colon ∈ render s lowEnergyUpdate fast ∧
      Effect.watch_clear_colon ∉ render s lowEnergyUpdate fast) ∧
    (s.running = LCF_RUN_RUNNING → ¬ sub64 fast s.startTs % 1024 < 512 →
      Effect.watch_clear_colon ∈ render s lowEnergyUpdate fast ∧
      Effect.watch_set_colon ∉ render s lowEnergyUpdate fast) ∧
    (Effect.watch_clear_colon ∈ render startedAtZero false 1536 ∧
      Effect.watch_set_colon ∉ render startedAtZero false 1536) := by
  refine ⟨?_, ?_, ?_, by decide⟩
  · intro hr
    simp only [render, colonEffect, secondaryEffects, hr]
    split_ifs <;> simp
  · intro hr hlt
    simp only [render, colonEffect, secondaryEffects, runningTime, hr,
      LCF_SUBSECOND_RATE]
    split_ifs <;> simp_all
  · intro hr hge
    simp only [render, colonEffect, secondaryEffects, runningTime, hr,
      LCF_SUBSECOND_RATE]
    split_ifs <;> simp_all

/-- Witness of C11: running since counter 0, rendered at counter 1536, one and a half
seconds later, in the second half of the second. -/
theorem render_colon_rule_witness :
    Effect.watch_clear_colon ∈ render startedAtZero false 1536 ∧
    Effect.watch_set_colon ∉ render startedAtZero false 1536 :=
  (render_colon_rule startedAtZero false 1536).2.2.1 (by decide) (by decide)

/-- C13: handling a tick, an activate event, a low-power tick, a timeout or a
light-button long press in the loop, and calling resign, leaves every persisted field
(`running`, `mode`, `display`, `startTs`, `pausedTs`, `splitTs`, `laps`) unchanged: the
state after is the state before. -/
theorem rendering_events_keep_state (s : hpt_lapsplit_chrono_state_t)
    (now fast : Nat) (dflt : Bool) :
    (hpt_lapsplit_chrono_face_loop EVENT_TICK s now fast dflt).state = s ∧
    (hpt_lapsplit_chrono_face_loop EVENT_ACTIVATE s now fast dflt).state = s ∧
    (hpt_lapsplit_chrono_face_loop EVENT_LOW_ENERGY_UPDATE s now fast dflt).state = s ∧
    (hpt_lapsplit_chrono_face_loop EVENT_TIMEOUT s now fast dflt).state = s ∧
    (hpt_lapsplit_chrono_face_loop EVENT_LIGHT_LONG_PRESS s now fast dflt).state = s ∧
    (hpt_lapsplit_chrono_face_resign s).1 = s :=
  ⟨rfl, rfl, rfl, rfl, rfl, rfl⟩

/-- C14: handling a timeout event in the loop issues `movement_move_to_face(0)` if and
only if the chronograph is stopped; while running no navigation request at all is
issued; in both cases the handler returns `true`. -/
theorem timeout_exits_only_when_stopped (s : hpt_lapsplit_chrono_state_t)
    (now fast : Nat) (dflt : Bool) :
    (Effect.movement_move_to_face 0 ∈
        (hpt_lapsplit_chrono_face_loop EVENT_TIMEOUT s now fast dflt).effects ↔
      s.running = LCF_RUN_STOPPED) ∧
    (s.running = LCF_RUN_RUNNING →
      (hpt_lapsplit_chrono_face_loop EVENT_TIMEOUT s now fast dflt).effects = []) ∧
    (hpt_lapsplit_chrono_face_loop EVENT_TIMEOUT s now fast dflt).ret = true := by
  cases hr : s.running <;> simp [hpt_lapsplit_chrono_face_loop, hr]

/-- Witness of C14: a running chronograph ignores the timeout. -/
theorem timeout_exits_only_when_stopped_witness :
    (hpt_lapsplit_chrono_face_loop EVENT_TIMEOUT startedAtZero 5 5 false).effects = [] :=
  (timeout_exits_only_when_stopped startedAtZero 5 5 false).2.1 (by decide)

/-- C15, as stated, fails: in the state `stoppedWithLap`, reached from the zeroed
stopped state by start, lap, dismiss, stop, the chronograph is stopped with one lap, and
the split-button event changes `laps` from 1 to 0 although it is not running. -/
theorem splitButton_stopped_clears_laps :
    runSteps (zeroState LCF_RUN_STOPPED LCF_MODE_LAP LCF_DISPLAY_TIME)
      stoppedWithLapSteps = stoppedWithLap ∧
    stoppedWithLap.laps = 1 ∧
    (stepState stoppedWithLap
      { op := FaceOp.loop EVENT_LIGHT_BUTTON_DOWN, now := 3000, fast := 3000,
        dflt := true }).laps = 0 ∧
    ¬ ((stepState stoppedWithLap
        { op := FaceOp.loop EVENT_LIGHT_BUTTON_DOWN, now := 3000, fast := 3000,
          dflt := true }).laps ≠ stoppedWithLap.laps →
      stoppedWithLap.mode = LCF_MODE_LAP ∧ stoppedWithLap.running = LCF_RUN_RUNNING) := by
  decide

/-- C15, amended: for every state and every operation of the face, `laps` after the
operation differs from `laps` before exactly when the operation is the split-button
event, the state before displays the running time (`display = TIME`), and either the
chronograph is running in LAP mode (a lap capture) or it is stopped with `laps ≠ 0`
(the clear action, which sets `laps` to 0). -/
theorem laps_changes_only_on_capture_or_clear (s : hpt_lapsplit_chrono_state_t)
    (st : Step) :
    ((stepState s st).laps ≠ s.laps ↔
      (st.op = FaceOp.loop EVENT_LIGHT_BUTTON_DOWN ∧ s.display = LCF_DISPLAY_TIME ∧
        ((s.running = LCF_RUN_RUNNING ∧ s.mode = LCF_MODE_LAP) ∨
         (s.running = LCF_RUN_STOPPED ∧ s.laps ≠ 0)))) ∧
    (st.op = FaceOp.loop EVENT_LIGHT_BUTTON_DOWN → s.display = LCF_DISPLAY_TIME →
      s.running = LCF_RUN_STOPPED → s.laps ≠ 0 → (stepState s st).laps = 0) := by
  obtain ⟨op, now, fast, dflt⟩ := st
  obtain ⟨r, m, d, sT, pT, spT, l⟩ := s
  cases op with
  | activate => simp [stepState, hpt_lapsplit_chrono_face_activate]
  | resign => simp [stepState, hpt_lapsplit_chrono_face_resign]
  | loop e =>
    cases e <;> cases r <;> cases m <;> cases d <;>
      simp [stepState, hpt_lapsplit_chrono_face_loop, splitButton, startStopButton, U8] <;>
      (try split) <;> (try simp_all) <;> omega

/-- Witness of C15 amended: the clear action on `stoppedWithLap` sets `laps` to 0. -/
theorem laps_changes_only_on_capture_or_clear_witness :
    (stepState stoppedWithLap
      { op := FaceOp.loop EVENT_LIGHT_BUTTON_DOWN, now := 3000, fast := 3000,
        dflt := true }).laps = 0 :=
  (laps_changes_only_on_capture_or_clear stoppedWithLap
    { op := FaceOp.loop EVENT_LIGHT_BUTTON_DOWN, now := 3000, fast := 3000,
      dflt := true }).2 rfl rfl rfl (by decide)

/-- C16, as stated, fails: in the state `runningShowingSplit`, reached from the zeroed
stopped state by start and split, the split is displayed, and the activate call of the
face sets `display` back to `TIME` without any split-button press. -/
theorem activate_clears_split_view :
    runSteps (zeroState LCF_RUN_STOPPED LCF_MODE_SPLIT LCF_DISPLAY_TIME)
      runningShowingSplitSteps = runningShowingSplit ∧
    runningShowingSplit.display = LCF_DISPLAY_SPLIT ∧
    (hpt_lapsplit_chrono_face_activate runningShowingSplit).1.display
      = LCF_DISPLAY_TIME ∧
    (stepState runningShowingSplit
      { op := FaceOp.activate, now := 4000, fast := 4000, dflt := true }).display
      ≠ LCF_DISPLAY_SPLIT := by
  decide

/-- C16, amended: for every state with `display = SPLIT`, every operation other than
the split-button event and the activate call (start-stop button, tick, low-power tick,
timeout, the activate event of the loop, long press, unhandled events, resign) leaves
`display = SPLIT`; the split-button event and the activate call both set
`display = TIME`. -/
theorem split_view_cleared_only_by_split_or_activate (s : hpt_lapsplit_chrono_state_t)
    (st : Step) (hdisp : s.display = LCF_DISPLAY_SPLIT) :
    (st.op ≠ FaceOp.loop EVENT_LIGHT_BUTTON_DOWN → st.op ≠ FaceOp.activate →
      (stepState s st).display = LCF_DISPLAY_SPLIT) ∧
    (st.op = FaceOp.loop EVENT_LIGHT_BUTTON_DOWN ∨ st.op = FaceOp.activate →
      (stepState s st).display = LCF_DISPLAY_TIME) := by
  obtain ⟨op, now, fast, dflt⟩ := st
  cases op with
  | activate => simp [stepState, hpt_lapsplit_chrono_face_activate]
  | resign => simp [stepState, hpt_lapsplit_chrono_face_resign, hdisp]
  | loop e =>
    cases e <;>
      simp [stepState, hpt_lapsplit_chrono_face_loop, splitButton, startStopButton,
        hdisp]
    split <;> simp [hdisp]

/-- Witness of C16 amended: stopping the chronograph keeps the split on display. -/
theorem split_view_cleared_only_by_split_or_activate_witness :
    (stepState runningShowingSplit
      { op := FaceOp.loop EVENT_ALARM_BUTTON_DOWN, now := 5120, fast := 5120,
        dflt := true }).display = LCF_DISPLAY_SPLIT :=
  (split_view_cleared_only_by_split_or_activate runningShowingSplit
    { op := FaceOp.loop EVENT_ALARM_BUTTON_DOWN, now := 5120, fast := 5120,
      dflt := true } rfl).1 (by decide) (by decide)

/-- The property "in SPLIT mode the lap count is zero" is kept by every operation. -/
theorem stepState_split_mode_laps (s : hpt_lapsplit_chrono_state_t) (st : Step)
    (h : s.mode = LCF_MODE_SPLIT → s.laps = 0) :
    (stepState s st).mode = LCF_MODE_SPLIT → (stepState s st).laps = 0 := by
  obtain ⟨op, now, fast, dflt⟩ := st
  obtain ⟨r, m, d, sT, pT, spT, l⟩ := s
  cases op with
  | activate => simpa [stepState, hpt_lapsplit_chrono_face_activate] using h
  | resign => simpa [stepState, hpt_lapsplit_chrono_face_resign] using h
  | loop e =>
    cases e <;> cases r <;> cases m <;> cases d <;>
      simp_all [stepState, hpt_lapsplit_chrono_face_loop, splitButton, startStopButton] <;>
      (try split) <;> simp_all

/-- The property "in SPLIT mode the lap count is zero" is kept by every finite sequence
of operations. -/
theorem runSteps_split_mode_laps (steps : List Step) :
    ∀ s : hpt_lapsplit_chrono_state_t, (s.mode = LCF_MODE_SPLIT → s.laps = 0) →
      (runSteps s steps).mode = LCF_MODE_SPLIT → (runSteps s steps).laps = 0 := by
  induction steps with
  | nil => intro s h; simpa [runSteps] using h
  | cons st rest ih =>
    intro s h
    simpa [runSteps] using ih (stepState s st) (stepState_split_mode_laps s st h)

/-- C17: in every state reachable from the zero-initialised state by a finite sequence
of operations of the face with arbitrary counter readings, `mode = SPLIT` implies
`laps = 0`; this holds whichever enumeration constants are encoded as zero. -/
theorem split_mode_has_no_laps (r0 : LcfRun) (m0 : LcfMode) (d0 : LcfDisplay)
    (steps : List Step) :
    (runSteps (zeroState r0 m0 d0) steps).mode = LCF_MODE_SPLIT →
      (runSteps (zeroState r0 m0 d0) steps).laps = 0 :=
  runSteps_split_mode_laps steps _ (fun _ => rfl)

/-- Witness of C17: after start, split and stop in SPLIT mode the lap count is 0. -/
theorem split_mode_has_no_laps_witness :
    (runSteps (zeroState LCF_RUN_STOPPED LCF_MODE_SPLIT LCF_DISPLAY_TIME)
      stoppedShowingSplitSteps).laps = 0 :=
  split_mode_has_no_laps LCF_RUN_STOPPED LCF_MODE_SPLIT LCF_DISPLAY_TIME
    stoppedShowingSplitSteps (by decide)

/-- The hour count of `render` is at most 40 for every tick count. -/
theorem time_hours_le (t : Nat) : time_hours t ≤ 40 := by
  simp only [time_hours, U8]
  split <;> omega

/-- The conversion `"%2d"` of an 8-bit value takes at most three characters. -/
theorem sprintf_2d_length_le (n : Nat) (h : n < 256) : (sprintf_2d n).length ≤ 3 := by
  interval_cases n <;> decide

/-- C20: for every tick count `t < 40 * 3600 * 1024` the fields of `render` satisfy
`hours*3600 + minutes*60 + seconds = t / 1024` with `hours ≤ 39`, and
`hundredths * 1024 ≤ (t mod 1024) * 100 < (hundredths + 1) * 1024`; so the displayed
time, in hundredths of a second, never exceeds the elapsed time and is short of it by
less than one hundredth. -/
theorem decomposition_exact_seconds (t : Nat) (h : t < 40 * 3600 * 1024) :
    time_hours t * 3600 + time_minutes t * 60 + time_seconds t = t / 1024 ∧
    time_hours t ≤ 39 ∧
    time_hundreths t * 1024 ≤ (t % 1024) * 100 ∧
    (t % 1024) * 100 < (time_hundreths t + 1) * 1024 ∧
    ((time_hours t * 3600 + time_minutes t * 60 + time_seconds t) * 100
        + time_hundreths t) * 1024 ≤ t * 100 ∧
    t * 100 < ((time_hours t * 3600 + time_minutes t * 60 + time_seconds t) * 100
        + time_hundreths t + 1) * 1024 := by
  have hd := d_seconds_of_lt t (by omega)
  have hh := (time_hundreths_eq t).1
  have hhr := time_hours_of_lt t (by omega)
  have hs : time_seconds t = t / 1024 % 60 := by
    unfold time_seconds U8; rw [hd]; omega
  have hm : time_minutes t = t / 1024 / 60 % 60 := by
    unfold time_minutes U8; rw [hd]; omega
  have hhr2 : time_hours t = t / 1024 / 3600 := by omega
  have hw : time_hours t * 3600 + time_minutes t * 60 + time_seconds t = t / 1024 := by
    rw [hhr2, hm, hs]; omega
  rw [hw, hh]
  refine ⟨rfl, ?_, ?_, ?_, ?_, ?_⟩ <;> omega

/-- Witness of C20: 1536 ticks are 1 second and 50 hundredths. -/
theorem decomposition_exact_seconds_witness :
    time_hours 1536 * 3600 + time_minutes 1536 * 60 + time_seconds 1536 = 1536 / 1024 :=
  (decomposition_exact_seconds 1536 (by decide)).1

/-- The primary field has exactly six characters in both fidelity modes. -/
theorem primaryField_length (t : Nat) (lowEnergyUpdate : Bool) :
    (primaryField t lowEnergyUpdate).length = 6 := by
  have hh := (time_hundreths_eq t).2
  have hsm := time_seconds_minutes_lt t
  cases lowEnergyUpdate <;>
    simp [primaryField, sprintf_02d_eq_twoDigits _ (show time_minutes t < 100 by omega),
      sprintf_02d_eq_twoDigits _ (show time_seconds t < 100 by omega),
      sprintf_02d_eq_twoDigits _ (show time_hundreths t < 100 by omega), twoDigits]

/-- C18: for every state with an 8-bit lap count, every shown tick count and both
fidelity modes: the product `(t mod 1024) * 100` of the 16-bit operand, evaluated after
integer promotion, stays within `int` and the hundredths are at most 99; seconds and
minutes are at most 59 and hours at most 40; the primary string has exactly 6
characters and the secondary string (`"%2d"` of the lap count or of the hours) at most
3; so every string `render` writes fits `buf[7]` together with its terminator. -/
theorem render_output_fits_buffer (s : hpt_lapsplit_chrono_state_t)
    (lowEnergyUpdate : Bool) (fast t : Nat) (hl : s.laps < U8) :
    (t % LCF_SUBSECOND_RATE) % U16 * 100 < 2 ^ 31 ∧
    time_hundreths t ≤ 99 ∧ time_seconds t ≤ 59 ∧ time_minutes t ≤ 59 ∧
    time_hours t ≤ 40 ∧
    (primaryField t lowEnergyUpdate).length = 6 ∧
    (sprintf_2d s.laps).length ≤ 3 ∧
    (sprintf_2d (time_hours t)).length ≤ 3 ∧
    (∀ (str : List Char) (position : Nat),
      Effect.watch_display_string str position ∈ render s lowEnergyUpdate fast →
      str.length + 1 ≤ 7) := by
  have hh := (time_hundreths_eq t).2
  have hsm := time_seconds_minutes_lt t
  have hhr := time_hours_le t
  have hlaps : (sprintf_2d s.laps).length ≤ 3 := sprintf_2d_length_le _ hl
  have hhrs : ∀ u, (sprintf_2d (time_hours u)).length ≤ 3 := fun u =>
    sprintf_2d_length_le _ (by have := time_hours_le u; omega)
  refine ⟨?_, hh, by omega, by omega, hhr, primaryField_length t lowEnergyUpdate,
    hlaps, hhrs t, ?_⟩
  · unfold LCF_SUBSECOND_RATE U16
    omega
  · intro str position hmem
    have hp := primaryField_length (showTime s fast) lowEnergyUpdate
    have hhs := hhrs (showTime s fast)
    simp only [render, colonEffect, secondaryEffects] at hmem
    split_ifs at hmem <;> simp at hmem <;>
      rcases hmem with ⟨rfl, -⟩ | ⟨rfl, -⟩ <;> simp <;> omega

/-- Witness of C18: a running chronograph in LAP mode with 39 laps, normal render. -/
theorem render_output_fits_buffer_witness :
    (primaryField 1536 false).length = 6 :=
  (render_output_fits_buffer
    { running := LCF_RUN_RUNNING, mode := LCF_MODE_LAP, display := LCF_DISPLAY_TIME,
      startTs := 100, pausedTs := 0, splitTs := 0, laps := 39 } false 1636 1536
    (by decide)).2.2.2.2.2.1

theorem refCountAfter_append (a b : List Effect) :
    ∀ c : Int, refCountAfter c (a ++ b) = refCountAfter (refCountAfter c a) b := by
  induction a with
  | nil => intro c; rfl
  | cons e rest ih => intro c; simp [refCountAfter, ih]

theorem refCountsDuring_append (a b : List Effect) :
    ∀ c : Int, refCountsDuring c (a ++ b)
      = refCountsDuring c a ++ refCountsDuring (refCountAfter c a) b := by
  induction a with
  | nil => intro c; rfl
  | cons e rest ih => intro c; simp [refCountsDuring, refCountAfter, ih]

theorem readsWhileHeld_append (a b : List Effect) :
    ∀ c : Int, readsWhileHeld c (a ++ b)
      = (readsWhileHeld c a && readsWhileHeld (refCountAfter c a) b) := by
  induction a with
  | nil => intro c; simp [readsWhileHeld, refCountAfter]
  | cons e rest ih => intro c; simp [readsWhileHeld, refCountAfter, ih, Bool.and_assoc]

/-- A list of calls without request and release leaves the reference count alone. -/
theorem refCountAfter_of_neutral (l : List Effect) :
    (∀ e ∈ l, refDelta e = 0) → ∀ c : Int, refCountAfter c l = c := by
  induction l with
  | nil => intro _ c; rfl
  | cons e rest ih =>
    intro h c
    have he : refDelta e = 0 := h e (List.mem_cons_self _ _)
    have hr := ih (fun x hx => h x (List.mem_cons_of_mem _ hx)) c
    simp [refCountAfter, he, hr]

/-- During a list of calls without request and release the count stays what it was. -/
theorem refCountsDuring_of_neutral (l : List Effect) :
    (∀ e ∈ l, refDelta e = 0) → ∀ c : Int, ∀ x ∈ refCountsDuring c l, x = c := by
  induction l with
  | nil => intro _ c x hx; simp [refCountsDuring] at hx
  | cons e rest ih =>
    intro h c x hx
    have he : refDelta e = 0 := h e (List.mem_cons_self _ _)
    have hr := ih (fun y hy => h y (List.mem_cons_of_mem _ hy)) c
    simp only [refCountsDuring, he, Int.add_zero, List.mem_cons] at hx
    rcases hx with hx | hx
    · exact hx
    · exact hr x hx

/-- While a reference is held, a list of calls without request and release may read
the counter anywhere. -/
theorem readsWhileHeld_of_held (l : List Effect) :
    (∀ e ∈ l, refDelta e = 0) → ∀ c : Int, 1 ≤ c → readsWhileHeld c l = true := by
  induction l with
  | nil => intro _ c _; rfl
  | cons e rest ih =>
    intro h c hc
    have he : refDelta e = 0 := h e (List.mem_cons_self _ _)
    have hr := ih (fun y hy => h y (List.mem_cons_of_mem _ hy)) c hc
    simp [readsWhileHeld, he, hr, hc]

/-- A list of calls that never reads the counter satisfies the read discipline. -/
theorem readsWhileHeld_of_noRead (l : List Effect) :
    (∀ e ∈ l, isCounterRead e = false) → ∀ c : Int, readsWhileHeld c l = true := by
  induction l with
  | nil => intro _ c; rfl
  | cons e rest ih =>
    intro h c
    have he : isCounterRead e = false := h e (List.mem_cons_self _ _)
    have hr := ih (fun y hy => h y (List.mem_cons_of_mem _ hy)) (c + refDelta e)
    simp [readsWhileHeld, he, hr]

/-- The renderer neither requests nor releases the timer. -/
theorem render_neutral (s : hpt_lapsplit_chrono_state_t) (lowEnergyUpdate : Bool)
    (fast : Nat) : ∀ e ∈ render s lowEnergyUpdate fast, refDelta e = 0 := by
  intro e he
  simp only [render, colonEffect, secondaryEffects] at he
  split_ifs at he <;> simp at he <;> rcases he with rfl | rfl | rfl | rfl | rfl <;> rfl

/-- The renderer reads the counter only when the chronograph is running. -/
theorem render_noRead_stopped (s : hpt_lapsplit_chrono_state_t) (lowEnergyUpdate : Bool)
    (fast : Nat) (hstop : s.running = LCF_RUN_STOPPED) :
    ∀ e ∈ render s lowEnergyUpdate fast, isCounterRead e = false := by
  intro e he
  simp only [render, colonEffect, secondaryEffects, hstop, reduceCtorEq, if_false,
    if_true, List.nil_append] at he
  split_ifs at he <;> simp at he <;> rcases he with rfl | rfl | rfl | rfl <;> rfl

/-- The renderer keeps the read discipline at the count that matches the state. -/
theorem render_readsWhileHeld (s : hpt_lapsplit_chrono_state_t) (lowEnergyUpdate : Bool)
    (fast : Nat) : readsWhileHeld (refOf s) (render s lowEnergyUpdate fast) = true := by
  cases hr : s.running
  · exact readsWhileHeld_of_held _ (render_neutral s lowEnergyUpdate fast) _
      (by simp [refOf, hr])
  · exact readsWhileHeld_of_noRead _ (render_noRead_stopped s lowEnergyUpdate fast hr) _

theorem refOf_range (s : hpt_lapsplit_chrono_state_t) : 0 ≤ refOf s ∧ refOf s ≤ 1 := by
  unfold refOf
  split <;> omega

/-- The split button never starts or stops the chronograph. -/
theorem splitButton_keeps_running (s : hpt_lapsplit_chrono_state_t) (now : Nat) :
    (splitButton s now).1.running = s.running := by
  unfold splitButton
  split_ifs <;> rfl

/-- The split button makes no call, or exactly one exact read while running. -/
theorem splitButton_calls (s : hpt_lapsplit_chrono_state_t) (now : Nat) :
    (splitButton s now).2 = [] ∨
    ((splitButton s now).2 = [Effect.movement_hpt_get] ∧
      s.running = LCF_RUN_RUNNING) := by
  unfold splitButton
  cases hr : s.running <;> split_ifs <;> simp_all

/-- Calls that respect the reference discipline, followed by a render of the state they
lead to, respect it as well. -/
theorem calls_then_render_ref (s t : hpt_lapsplit_chrono_state_t) (a : List Effect)
    (lowEnergyUpdate : Bool) (fast : Nat)
    (h1 : refCountAfter (refOf s) a = refOf t)
    (h2 : ∀ x ∈ refCountsDuring (refOf s) a, 0 ≤ x ∧ x ≤ 1)
    (h3 : readsWhileHeld (refOf s) a = true) :
    refCountAfter (refOf s) (a ++ render t lowEnergyUpdate fast) = refOf t ∧
    (∀ x ∈ refCountsDuring (refOf s) (a ++ render t lowEnergyUpdate fast),
      0 ≤ x ∧ x ≤ 1) ∧
    readsWhileHeld (refOf s) (a ++ render t lowEnergyUpdate fast) = true := by
  have hn := render_neutral t lowEnergyUpdate fast
  refine ⟨?_, ?_, ?_⟩
  · rw [refCountAfter_append, h1, refCountAfter_of_neutral _ hn]
  · intro x hx
    rw [refCountsDuring_append, h1, List.mem_append] at hx
    rcases hx with hx | hx
    · exact h2 x hx
    · rw [refCountsDuring_of_neutral _ hn _ x hx]
      exact refOf_range t
  · rw [readsWhileHeld_append, h1, h3, render_readsWhileHeld]
    rfl

/-- One operation of the face, started at the reference count that matches the state,
ends at the count that matches the new state, keeps the count within 0 and 1 after
every call, and reads the counter only while the count is at least 1. -/
theorem stepEffects_ref (s : hpt_lapsplit_chrono_state_t) (st : Step) :
    refCountAfter (refOf s) (stepEffects s st) = refOf (stepState s st) ∧
    (∀ x ∈ refCountsDuring (refOf s) (stepEffects s st), 0 ≤ x ∧ x ≤ 1) ∧
    readsWhileHeld (refOf s) (stepEffects s st) = true := by
  obtain ⟨op, now, fast, dflt⟩ := st
  cases op with
  | activate =>
    cases hr : s.running <;>
      simp [stepEffects, stepState, hpt_lapsplit_chrono_face_activate, refOf, hr,
        refCountAfter, refCountsDuring, readsWhileHeld, refDelta, isCounterRead]
  | resign =>
    cases hr : s.running <;>
      simp [stepEffects, stepState, hpt_lapsplit_chrono_face_resign, refOf, hr,
        refCountAfter, refCountsDuring, readsWhileHeld, refDelta, isCounterRead]
  | loop e =>
    cases e with
    | EVENT_LIGHT_BUTTON_DOWN =>
      simp only [stepEffects, stepState, hpt_lapsplit_chrono_face_loop]
      have hk : refOf (splitButton s now).1 = refOf s := by
        simp [refOf, splitButton_keeps_running]
      apply calls_then_render_ref
      · rcases splitButton_calls s now with h | ⟨h, -⟩ <;>
          simp [h, hk, refCountAfter, refDelta]
      · rcases splitButton_calls s now with h | ⟨h, -⟩ <;>
          simp [h, refCountsDuring, refDelta, refOf_range]
      · rcases splitButton_calls s now with h | ⟨h, hr⟩
        · simp [h, readsWhileHeld]
        · simp [h, hr, refOf, readsWhileHeld, isCounterRead]
    | EVENT_ALARM_BUTTON_DOWN =>
      simp only [stepEffects, stepState, hpt_lapsplit_chrono_face_loop]
      apply calls_then_render_ref <;>
        cases hr : s.running <;>
        simp [startStopButton, hr, refOf, refCountAfter, refCountsDuring,
          readsWhileHeld, refDelta, isCounterRead]
    | EVENT_LIGHT_LONG_PRESS =>
      simp [stepEffects, stepState, hpt_lapsplit_chrono_face_loop, refCountAfter,
        refCountsDuring, readsWhileHeld]
    | EVENT_LOW_ENERGY_UPDATE =>
      simpa [stepEffects, stepState, hpt_lapsplit_chrono_face_loop] using
        calls_then_render_ref s s [] true fast rfl (by simp [refCountsDuring]) rfl
    | EVENT_ACTIVATE =>
      simpa [stepEffects, stepState, hpt_lapsplit_chrono_face_loop] using
        calls_then_render_ref s s [] false fast rfl (by simp [refCountsDuring]) rfl
    | EVENT_TICK =>
      simpa [stepEffects, stepState, hpt_lapsplit_chrono_face_loop] using
        calls_then_render_ref s s [] false fast rfl (by simp [refCountsDuring]) rfl
    | EVENT_TIMEOUT =>
      cases hr : s.running <;>
        simp [stepEffects, stepState, hpt_lapsplit_chrono_face_loop, refOf, hr,
          refCountAfter, refCountsDuring, readsWhileHeld, refDelta, isCounterRead]
    | OTHER =>
      cases hr : s.running <;>
        simp [stepEffects, stepState, hpt_lapsplit_chrono_face_loop, refOf, hr,
          refCountAfter, refCountsDuring, readsWhileHeld, refDelta, isCounterRead]

/-- A finite sequence of operations, started at the reference count that matches the
state, ends at the count that matches the final state, keeps the count within 0 and 1
after every call, and reads the counter only while the count is at least 1. -/
theorem runEffects_ref (steps : List Step) :
    ∀ s : hpt_lapsplit_chrono_state_t,
      refCountAfter (refOf s) (runEffects s steps) = refOf (runSteps s steps) ∧
      (∀ x ∈ refCountsDuring (refOf s) (runEffects s steps), 0 ≤ x ∧ x ≤ 1) ∧
      readsWhileHeld (refOf s) (runEffects s steps) = true := by
  induction steps with
  | nil =>
    intro s
    simp [runEffects, runSteps, refCountAfter, refCountsDuring, readsWhileHeld]
  | cons st rest ih =>
    intro s
    obtain ⟨h1, h2, h3⟩ := stepEffects_ref s st
    obtain ⟨i1, i2, i3⟩ := ih (stepState s st)
    have hrun : runSteps s (st :: rest) = runSteps (stepState s st) rest := rfl
    simp only [runEffects, hrun]
    refine ⟨?_, ?_, ?_⟩
    · rw [refCountAfter_append, h1, i1]
    · intro x hx
      rw [refCountsDuring_append, h1, List.mem_append] at hx
      rcases hx with hx | hx
      · exact h2 x hx
      · exact i2 x hx
    · rw [readsWhileHeld_append, h1, h3, i3]
      rfl

/-- C12: with `movement_hpt_request` and `movement_hpt_release` counted as +1 and -1
on a counter that starts at 0 with the chronograph stopped, after every finite sequence
of operations of the face the counter is 1 if the chronograph is running and 0 if it is
stopped, and after every single call on the way it is neither negative nor above 1. -/
theorem timer_reference_balance (s : hpt_lapsplit_chrono_state_t) (steps : List Step)
    (hstop : s.running = LCF_RUN_STOPPED) :
    ((runSteps s steps).running = LCF_RUN_RUNNING →
      refCountAfter 0 (runEffects s steps) = 1) ∧
    ((runSteps s steps).running = LCF_RUN_STOPPED →
      refCountAfter 0 (runEffects s steps) = 0) ∧
    (∀ x ∈ refCountsDuring 0 (runEffects s steps), 0 ≤ x ∧ x ≤ 1) := by
  have h0 : refOf s = 0 := by simp [refOf, hstop]
  obtain ⟨h1, h2, -⟩ := runEffects_ref steps s
  rw [h0] at h1 h2
  refine ⟨?_, ?_, h2⟩
  · intro hr
    rw [h1]
    simp [refOf, hr]
  · intro hr
    rw [h1]
    simp [refOf, hr]

/-- Witness of C12: start, split, stop from the zeroed stopped state: the counter is
back at 0. -/
theorem timer_reference_balance_witness :
    refCountAfter 0
      (runEffects (zeroState LCF_RUN_STOPPED LCF_MODE_SPLIT LCF_DISPLAY_TIME)
        stoppedShowingSplitSteps) = 0 :=
  (timer_reference_balance (zeroState LCF_RUN_STOPPED LCF_MODE_SPLIT LCF_DISPLAY_TIME)
    stoppedShowingSplitSteps rfl).2.1 (by decide)

/-- C19: in every sequence of operations that starts from a stopped state with the
reference count at 0, every counter read of the face (the exact reads of the two
buttons and the fast read of `render`) happens while the count is at least 1; on start
the request precedes the read, on stop the read precedes the release, and `render`
reads only when running. -/
theorem counter_read_only_while_held (s : hpt_lapsplit_chrono_state_t)
    (steps : List Step) (hstop : s.running = LCF_RUN_STOPPED) :
    readsWhileHeld 0 (runEffects s steps) = true ∧
    (∀ (t : hpt_lapsplit_chrono_state_t) (now : Nat), t.running = LCF_RUN_STOPPED →
      (startStopButton t now).2
        = [Effect.movement_hpt_request, Effect.movement_hpt_get,
           Effect.movement_request_tick_frequency LCF_DISPLAY_UPDATE_RATE]) ∧
    (∀ (t : hpt_lapsplit_chrono_state_t) (now : Nat), t.running = LCF_RUN_RUNNING →
      (startStopButton t now).2
        = [Effect.movement_hpt_get, Effect.movement_hpt_release,
           Effect.movement_request_tick_frequency 1]) ∧
    (∀ (t : hpt_lapsplit_chrono_state_t) (lowEnergyUpdate : Bool) (fast : Nat),
      (Effect.movement_hpt_get_fast ∈ render t lowEnergyUpdate fast ↔
        t.running = LCF_RUN_RUNNING)) ∧
    (∀ (t : hpt_lapsplit_chrono_state_t) (now : Nat),
      Effect.movement_hpt_get ∈ (splitButton t now).2 → t.running = LCF_RUN_RUNNING) := by
  have h0 : refOf s = 0 := by simp [refOf, hstop]
  obtain ⟨-, -, h3⟩ := runEffects_ref steps s
  rw [h0] at h3
  refine ⟨h3, ?_, ?_, ?_, ?_⟩
  · intro t now ht
    simp [startStopButton, ht]
  · intro t now ht
    simp [startStopButton, ht]
  · intro t lowEnergyUpdate fast
    cases hr : t.running
    · simp [render, hr]
    · have := render_noRead_stopped t lowEnergyUpdate fast hr
      constructor
      · intro hm
        have := this _ hm
        simp [isCounterRead] at this
      · intro hfalse
        cases hfalse
  · intro t now hm
    rcases splitButton_calls t now with h | ⟨-, hr⟩
    · rw [h] at hm
      cases hm
    · exact hr

/-- Witness of C19: start, split, stop from the zeroed stopped state: every read is
made while the reference is held. -/
theorem counter_read_only_while_held_witness :
    readsWhileHeld 0
      (runEffects (zeroState LCF_RUN_STOPPED LCF_MODE_SPLIT LCF_DISPLAY_TIME)
        stoppedShowingSplitSteps) = true :=
  (counter_read_only_while_held
    (zeroState LCF_RUN_STOPPED LCF_MODE_SPLIT LCF_DISPLAY_TIME)
    stoppedShowingSplitSteps rfl).1

end LapSplitChrono
